import Mathlib

/-!
Verification development for the Webhound backend (job lifecycle and
result-normalization pipeline).

The definitions below are a shallow embedding of the Python sources:
  * `backend/main.py` (`process_dataset`, `rate_job`, admin endpoints),
  * `backend/database.py` (`JobDatabase`),
  * `backend/crewai_setup_working.py` (`WebhoundCrewAI.create_dataset`).

Modelling conventions:
  * Python JSON-like values are `JsonValue` (numbers restricted to integers;
    floating point is outside the embedding and never exercised by claims).
  * Python exceptions are `Except String` results; the error string models the
    exception message passed to `str(e)`.
  * The two regular expressions used by the sources,
    three-backtick fenced code block with optional json tag (DOTALL), and
    the greedy brace pattern (DOTALL), are implemented directly
    with their leftmost-match backtracking semantics.
  * `str.lower`, `str.strip` and the whitespace classes are modelled on the
    ASCII range, which is all that the sources' keyword lists and payloads use.
-/

/-- A JSON-like Python value: `None`, `bool`, `int`, `str`, `list`, `dict`.
Object fields are kept in insertion order; lookups take the last binding,
matching `json.loads` duplicate-key behaviour. -/
inductive JsonValue where
  | null : JsonValue
  | bool : Bool → JsonValue
  | num : Int → JsonValue
  | str : String → JsonValue
  | arr : List JsonValue → JsonValue
  | obj : List (String × JsonValue) → JsonValue

/-- The opening-brace character, written by code point to keep sources plain. -/
def lbrace : Char := Char.ofNat 123

/-- The closing-brace character. -/
def rbrace : Char := Char.ofNat 125

/-- Python regex `\s` on the ASCII range: space, tab, newline, carriage
return, form feed, vertical tab. -/
def pyIsSpace (c : Char) : Bool :=
  c = ' ' || c = '\t' || c = '\n' || c = '\r' || c = Char.ofNat 12 || c = Char.ofNat 11

/-- JSON whitespace skipped by `json.loads`: space, tab, newline, carriage
return. -/
def jsonIsWs (c : Char) : Bool :=
  c = ' ' || c = '\t' || c = '\n' || c = '\r'

/-- Index of the first occurrence of `pat` in `t` (`None` if absent). -/
def firstOccur (pat : List Char) : List Char → Option Nat
  | [] => if pat.isEmpty then some 0 else none
  | c :: t => if pat.isPrefixOf (c :: t) then some 0 else (firstOccur pat t).map (· + 1)

/-- Python `str.strip()` on the ASCII whitespace class. -/
def pyStripChars (s : List Char) : List Char :=
  ((s.dropWhile pyIsSpace).reverse.dropWhile pyIsSpace).reverse

/-- Python `str.strip()` lifted to `String`. -/
def pyStrip (s : String) : String :=
  String.mk (pyStripChars s.data)

/-- Group-1 matcher for the fenced-code-block regex anchored at the start of
`r`, where `r` is the text right after the backticks and the optional tag.
Models greedy whitespace followed by a mandatory newline, then a lazy body up
to the closing newline-plus-backticks, with the regex backtracking order:
later newlines in the whitespace run are preferred. -/
def fencedAfterTag (r : List Char) : Option (List Char) :=
  let w := (r.takeWhile pyIsSpace).length
  let tryAt : Nat → Option (List Char) := fun j =>
    if r.get? j = some '\n' then
      let t := r.drop (j + 1)
      (firstOccur ('\n' :: "```".data) t).map (fun k => t.take k)
    else none
  let rec descend : Nat → Option (List Char)
    | 0 => tryAt 0
    | j + 1 => (tryAt (j + 1)).orElse (fun _ => descend j)
  if w = 0 then none else descend (w - 1)

/-- Matcher for the full fenced-code-block regex anchored at the start of `s`:
three backticks, optional json tag (tried first, as the regex engine
does), whitespace, newline, lazy body, newline, three backticks.  Returns the
group-1 body. -/
def fencedAnchored (s : List Char) : Option (List Char) :=
  if "```".data.isPrefixOf s then
    let r1 := s.drop 3
    if "json".data.isPrefixOf r1 then
      (fencedAfterTag (r1.drop 4)).orElse (fun _ => fencedAfterTag r1)
    else fencedAfterTag r1
  else none

/-- Leftmost search for the fenced-code-block regex over `s`
(`re.search` with `re.DOTALL` in the sources). -/
def fencedSearchChars : List Char → Option (List Char)
  | [] => none
  | c :: t => (fencedAnchored (c :: t)).orElse (fun _ => fencedSearchChars t)

/-- `re.search` of the fenced-code-block pattern on a `String`, returning the
group-1 body. Used identically by `process_dataset` (main.py) and
`WebhoundCrewAI.create_dataset` (crewai_setup_working.py). -/
def fencedSearch (s : String) : Option String :=
  (fencedSearchChars s.data).map String.mk

/-- Index of the last occurrence of character `c` in `t`. -/
def lastIdxOf (c : Char) (t : List Char) : Option Nat :=
  (firstOccur [c] t.reverse).map (fun k => t.length - 1 - k)

/-- `re.search` of the greedy brace pattern with `re.DOTALL`: the match runs
from the first opening brace to the last closing brace of the whole string,
provided such a pair exists. -/
def braceSearch (s : String) : Option String :=
  match firstOccur [lbrace] s.data with
  | none => none
  | some i =>
    let t := s.data.drop i
    match lastIdxOf rbrace t with
    | none => none
    | some k => if k = 0 then none else some (String.mk (t.take (k + 1)))

/-- Hexadecimal digit value, for JSON unicode escapes. -/
def hexVal (c : Char) : Option Nat :=
  if '0' ≤ c ∧ c ≤ '9' then some (c.toNat - '0'.toNat)
  else if 'a' ≤ c ∧ c ≤ 'f' then some (c.toNat - 'a'.toNat + 10)
  else if 'A' ≤ c ∧ c ≤ 'F' then some (c.toNat - 'A'.toNat + 10)
  else none

/-- Single-character JSON string escapes. -/
def escChar (c : Char) : Option Char :=
  if c = '"' then some '"'
  else if c = '\\' then some '\\'
  else if c = '/' then some '/'
  else if c = 'b' then some (Char.ofNat 8)
  else if c = 'f' then some (Char.ofNat 12)
  else if c = 'n' then some '\n'
  else if c = 'r' then some '\r'
  else if c = 't' then some '\t'
  else none

/-- Body of a JSON string literal after the opening quote: the decoded
characters and the remainder after the closing quote.  Fuelled to keep the
recursion structural. -/
def parseStrChars : Nat → List Char → Option (List Char × List Char)
  | 0, _ => none
  | f + 1, s =>
    match s with
    | [] => none
    | c :: rest =>
      if c = '"' then some ([], rest)
      else if c = '\\' then
        match rest with
        | 'u' :: h1 :: h2 :: h3 :: h4 :: rest2 =>
          match hexVal h1, hexVal h2, hexVal h3, hexVal h4 with
          | some a, some b, some c2, some d =>
            (parseStrChars f rest2).map
              (fun p => (Char.ofNat (a * 4096 + b * 256 + c2 * 16 + d) :: p.1, p.2))
          | _, _, _, _ => none
        | e :: rest2 =>
          match escChar e with
          | some ec => (parseStrChars f rest2).map (fun p => (ec :: p.1, p.2))
          | none => none
        | [] => none
      else if c.toNat < 32 then none
      else (parseStrChars f rest).map (fun p => (c :: p.1, p.2))

/-- Decimal digits to a natural number. -/
def digitsToNat (ds : List Char) : Nat :=
  ds.foldl (fun acc c => acc * 10 + (c.toNat - '0'.toNat)) 0

/-- JSON integer literal (optional minus, no leading zeros).  Fractional and
exponent forms are outside the embedding and fail the parse. -/
def parseNumber (s : List Char) : Option (JsonValue × List Char) :=
  let signed := match s with
    | c :: r => if c = '-' then (true, r) else (false, s)
    | [] => (false, s)
  let digits := signed.2.takeWhile Char.isDigit
  let rest := signed.2.drop digits.length
  if digits.isEmpty then none
  else if 1 < digits.length ∧ digits.head? = some '0' then none
  else
    let bad := match rest with
      | c :: _ => c = '.' || c = 'e' || c = 'E'
      | [] => false
    if bad then none
    else
      let n : Int := Int.ofNat (digitsToNat digits)
      some (.num (if signed.1 then -n else n), rest)

mutual

/-- One JSON value at the head of `s` (whitespace-tolerant), with remainder. -/
def parseValue : Nat → List Char → Option (JsonValue × List Char)
  | 0, _ => none
  | f + 1, s =>
    let s := s.dropWhile jsonIsWs
    match s with
    | [] => none
    | c :: rest =>
      if c = '"' then
        (parseStrChars (rest.length + 1) rest).map (fun p => (.str (String.mk p.1), p.2))
      else if c = lbrace then parseObjBody f rest
      else if c = '[' then parseArrBody f rest
      else if "true".data.isPrefixOf s then some (.bool true, s.drop 4)
      else if "false".data.isPrefixOf s then some (.bool false, s.drop 5)
      else if "null".data.isPrefixOf s then some (.null, s.drop 4)
      else parseNumber s

/-- Object body after the opening brace. -/
def parseObjBody : Nat → List Char → Option (JsonValue × List Char)
  | 0, _ => none
  | f + 1, s =>
    let s := s.dropWhile jsonIsWs
    match s with
    | c :: rest =>
      if c = rbrace then some (.obj [], rest)
      else parseMembers f (c :: rest) []
    | [] => none

/-- Comma-separated `key: value` members, accumulating in order. -/
def parseMembers : Nat → List Char → List (String × JsonValue) →
    Option (JsonValue × List Char)
  | 0, _, _ => none
  | f + 1, s, acc =>
    let s := s.dropWhile jsonIsWs
    match s with
    | '"' :: rest =>
      match parseStrChars (rest.length + 1) rest with
      | none => none
      | some (kcs, r1) =>
        match (r1.dropWhile jsonIsWs) with
        | ':' :: r2 =>
          match parseValue f r2 with
          | none => none
          | some (v, r3) =>
            let acc' := acc ++ [(String.mk kcs, v)]
            match (r3.dropWhile jsonIsWs) with
            | c :: r4 =>
              if c = ',' then parseMembers f r4 acc'
              else if c = rbrace then some (.obj acc', r4)
              else none
            | [] => none
        | _ => none
    | _ => none

/-- Array body after the opening bracket. -/
def parseArrBody : Nat → List Char → Option (JsonValue × List Char)
  | 0, _ => none
  | f + 1, s =>
    let s := s.dropWhile jsonIsWs
    match s with
    | c :: rest =>
      if c = ']' then some (.arr [], rest)
      else parseElems f (c :: rest) []
    | [] => none

/-- Comma-separated array elements, accumulating in order. -/
def parseElems : Nat → List Char → List JsonValue → Option (JsonValue × List Char)
  | 0, _, _ => none
  | f + 1, s, acc =>
    match parseValue f s with
    | none => none
    | some (v, r1) =>
      let acc' := acc ++ [v]
      match (r1.dropWhile jsonIsWs) with
      | c :: r2 =>
        if c = ',' then parseElems f r2 acc'
        else if c = ']' then some (.arr acc', r2)
        else none
      | [] => none

end

/-- Python `json.loads` on the modelled fragment: parse one value and require
only whitespace to remain. -/
def jsonParse (s : String) : Option JsonValue :=
  match parseValue (2 * s.length + 4) s.data with
  | some (v, rest) => if (rest.dropWhile jsonIsWs).isEmpty then some v else none
  | none => none

/-- Lookup in a JSON object, last binding wins (`dict` semantics after
`json.loads`); `None` when the value is not an object or lacks the key. -/
def objGet? (v : JsonValue) (k : String) : Option JsonValue :=
  match v with
  | .obj fs => (fs.reverse.find? (fun kv => kv.1 == k)).map (fun kv => kv.2)
  | _ => none

/-- Python `d.get(k, default)` on an object already known to be a `dict`. -/
def objGetD (v : JsonValue) (k : String) (d : JsonValue) : JsonValue :=
  (objGet? v k).getD d

/-- Python truthiness of a JSON-like value. -/
def pyTruthy : JsonValue → Bool
  | .null => false
  | .bool b => b
  | .num n => n ≠ 0
  | .str s => s ≠ ""
  | .arr xs => !xs.isEmpty
  | .obj fs => !fs.isEmpty

/-- Python `len`, raising `TypeError` on numbers, booleans and `None`. -/
def pyLen : JsonValue → Except String Nat
  | .str s => .ok s.length
  | .arr xs => .ok xs.length
  | .obj fs => .ok fs.length
  | _ => .error "TypeError: object has no len()"

/-- Python `x[0]`: list head, first character of a string, `KeyError` on a
dict without an integer key, `TypeError` otherwise. -/
def pyIndex0 : JsonValue → Except String JsonValue
  | .arr (x :: _) => .ok x
  | .arr [] => .error "IndexError: list index out of range"
  | .str s =>
    match s.data with
    | c :: _ => .ok (.str (String.mk [c]))
    | [] => .error "IndexError: string index out of range"
  | .obj _ => .error "KeyError: 0"
  | _ => .error "TypeError: object is not subscriptable"

/-- Python `repr`-style stringification used by `str(dataset)` fallbacks
(string escaping inside reprs is not modelled; no claim depends on it). -/
def pyRepr : JsonValue → String
  | .null => "None"
  | .bool true => "True"
  | .bool false => "False"
  | .num n => toString n
  | .str s => "\x27" ++ s ++ "\x27"
  | .arr xs => "[" ++ String.intercalate ", " (xs.attach.map (fun x => pyRepr x.1)) ++ "]"
  | .obj fs =>
    "\x7b" ++
      String.intercalate ", "
        (fs.attach.map (fun kv => "\x27" ++ kv.1.1 ++ "\x27: " ++ pyRepr kv.1.2)) ++
    "\x7d"
decreasing_by
  · have h := List.sizeOf_lt_of_mem x.2
    simp only [JsonValue.arr.sizeOf_spec]
    omega
  · obtain ⟨⟨k, v⟩, hm⟩ := kv
    have h := List.sizeOf_lt_of_mem hm
    simp only [Prod.mk.sizeOf_spec] at h
    simp only [JsonValue.obj.sizeOf_spec]
    omega

/-- The normalized variables computed by Step 3 of `process_dataset`
(main.py), consumed verbatim by the completed-status update of Step 4. -/
structure CompletedFields where
  dataset : JsonValue
  sources : JsonValue
  total_records : Nat
  validation_status : JsonValue
  quality_score : JsonValue
  validation_notes : JsonValue

/-- The `parsed_data = raw_data` fallback of Step 3 (no code block, or code
block that fails to parse), followed by Step 4's `len(parsed_data)`. -/
def fallbackUpd (dataset raw_data : JsonValue) : Except String CompletedFields :=
  match pyLen raw_data with
  | .error e => .error e
  | .ok n =>
    .ok { dataset := raw_data
          sources := objGetD dataset "sources" (.arr [])
          total_records := n
          validation_status := objGetD dataset "validation_status" (.str "completed")
          quality_score := objGetD dataset "quality_score" (.str "unknown")
          validation_notes := objGetD dataset "validation_notes" (.str "") }

/-- The markdown-code-block branch of Step 3 in `process_dataset`: extract a
fenced block from the `result` text, parse it, and pull the five fields from
the parsed object; fall back to the outer structure when the block is missing
or unparseable.  A parsed non-object raises (`.get` on a non-dict). -/
def parseFenced (dataset raw_data : JsonValue) (result_str : String) :
    Except String CompletedFields :=
  match fencedSearch result_str with
  | none => fallbackUpd dataset raw_data
  | some content =>
    match jsonParse (pyStrip content) with
    | none => fallbackUpd dataset raw_data
    | some pj =>
      match pj with
      | .obj _ =>
        match pyLen (objGetD pj "data" (.arr [])) with
        | .error e => .error e
        | .ok n =>
          .ok { dataset := objGetD pj "data" (.arr [])
                sources := objGetD pj "sources" (.arr [])
                total_records := n
                validation_status := objGetD pj "validation_status" (.str "completed")
                quality_score := objGetD pj "quality_score" (.str "unknown")
                validation_notes := objGetD pj "validation_notes" (.str "") }
      | _ => .error "AttributeError: object has no attribute get"

/-- Steps 3 and 4 of `process_dataset` (main.py lines 263-333): normalize the
raw pipeline payload into the fields of the completed-status update.  Errors
model Python exceptions that escape to the surrounding handler. -/
def step3and4 (q : String) (dataset : JsonValue) : Except String CompletedFields :=
  match dataset with
  | .obj fs =>
    let raw_data := objGetD (.obj fs) "data" (.arr [])
    if pyTruthy raw_data then
      match pyLen raw_data with
      | .error e => .error e
      | .ok n =>
        if 0 < n then
          match pyIndex0 raw_data with
          | .error e => .error e
          | .ok first_item =>
            match first_item with
            | .obj ifs =>
              match objGet? (.obj ifs) "result" with
              | some rv =>
                match rv with
                | .str result_str => parseFenced (.obj fs) raw_data result_str
                | _ => .error "TypeError: expected string or bytes-like object"
              | none => fallbackUpd (.obj fs) raw_data
            | _ => fallbackUpd (.obj fs) raw_data
        else fallbackUpd (.obj fs) raw_data
    else fallbackUpd (.obj fs) raw_data
  | other =>
    .ok { dataset := .arr [.obj [("query", .str q), ("result", .str (pyRepr other))]]
          sources := .arr []
          total_records := 1
          validation_status := .str "completed"
          quality_score := .str "unknown"
          validation_notes := .str "Processing completed" }

/-- Python `str.lower()` on the ASCII range. -/
def pyLower (s : String) : String := String.mk (s.data.map Char.toLower)

/-- Substring test on character lists. -/
def isSubstr (pat : List Char) : List Char → Bool
  | [] => pat.isEmpty
  | c :: t => pat.isPrefixOf (c :: t) || isSubstr pat t

/-- The quota/rate-limit keyword list shared by `process_dataset` (main.py
lines 339-341) and `create_dataset` (crewai_setup_working.py lines 301-303). -/
def quotaKeywords : List String :=
  ["quota", "429", "resourceexhausted", "rate limit", "exceeded"]

/-- Case-insensitive keyword classification of an error message:
`any(keyword in error_message.lower() for keyword in [...])`. -/
def quotaMatch (msg : String) : Bool :=
  quotaKeywords.any (fun k => isSubstr k.data (pyLower msg).data)

/-- One `db.update_job(job_id, **kwargs)` call: `none` fields are absent from
the kwargs and left untouched by the SQL `UPDATE`. -/
structure Upd where
  status : Option String := none
  dataset : Option JsonValue := none
  sources : Option JsonValue := none
  raw_data : Option JsonValue := none
  total_records : Option Nat := none
  validation_status : Option JsonValue := none
  quality_score : Option JsonValue := none
  validation_notes : Option JsonValue := none
  user_rating : Option String := none

/-- Step 2 of `process_dataset`: `db.update_job(job_id, raw_data=dataset)`. -/
def rawUpd (p : JsonValue) : Upd := { raw_data := some p }

/-- The quota-exceeded update issued when the payload itself carries
`validation_status == "quota_exceeded"` (main.py lines 249-261). -/
def quotaUpd3 : Upd :=
  { status := some "quota_exceeded"
    dataset := some (.arr [])
    sources := some (.arr [])
    total_records := some 0
    validation_status := some (.str "quota_exceeded")
    quality_score := some (.str "unknown")
    validation_notes :=
      some (.str "API quota exceeded. Please try again later or upgrade your plan.") }

/-- Step 4 of `process_dataset`: the completed-status update built from the
Step 3 variables (main.py lines 324-333). -/
def completedUpd (f : CompletedFields) : Upd :=
  { status := some "completed"
    dataset := some f.dataset
    sources := some f.sources
    total_records := some f.total_records
    validation_status := some f.validation_status
    quality_score := some f.quality_score
    validation_notes := some f.validation_notes }

/-- The exception handler of `process_dataset` (main.py lines 335-364):
keyword-classified terminal update with empty records and the error text
embedded in `validation_notes`. -/
def errorUpd (msg : String) : Upd :=
  if quotaMatch msg then
    { status := some "quota_exceeded"
      dataset := some (.arr [])
      sources := some (.arr [])
      total_records := some 0
      validation_status := some (.str "quota_exceeded")
      quality_score := some (.str "unknown")
      validation_notes :=
        some (.str ("API quota exceeded: " ++ msg ++
          ". Please try again later or upgrade your plan.")) }
  else
    { status := some "failed"
      dataset := some (.arr [])
      sources := some (.arr [])
      total_records := some 0
      validation_status := some (.str "failed")
      quality_score := some (.str "unknown")
      validation_notes := some (.str ("Error: " ++ msg)) }

/-- Truth of the Step 3 quota guard:
`isinstance(dataset, dict) and dataset.get("validation_status") == "quota_exceeded"`. -/
def isQuotaDict (p : JsonValue) : Bool :=
  match p with
  | .obj _ =>
    match objGet? p "validation_status" with
    | some (.str s) => s == "quota_exceeded"
    | _ => false
  | _ => false

/-- The ordered list of `db.update_job` calls issued by one run of
`process_dataset` for a given pipeline outcome (`Except.error` models
`create_dataset_async` raising; any exception inside Steps 3-4 is caught by
the same outer handler after the raw write). -/
def processDataset (q : String) (pipe : Except String JsonValue) : List Upd :=
  match pipe with
  | .error e => [errorUpd e]
  | .ok p =>
    rawUpd p ::
      (if isQuotaDict p then [quotaUpd3]
       else
         match step3and4 q p with
         | .ok f => [completedUpd f]
         | .error e => [errorUpd e])

/-- Computable structural size of a JSON value, used as recursion fuel. -/
def jsonSize : JsonValue → Nat
  | .null => 1
  | .bool _ => 1
  | .num _ => 1
  | .str _ => 1
  | .arr xs => 1 + (xs.attach.map (fun x => jsonSize x.1)).sum
  | .obj fs => 1 + (fs.attach.map (fun kv => jsonSize kv.1.2)).sum
decreasing_by
  · have h := List.sizeOf_lt_of_mem x.2
    simp only [JsonValue.arr.sizeOf_spec]
    omega
  · obtain ⟨⟨k, v⟩, hm⟩ := kv
    have h := List.sizeOf_lt_of_mem hm
    simp only [Prod.mk.sizeOf_spec] at h
    simp only [JsonValue.obj.sizeOf_spec]
    omega

/-- Equality test on JSON values, fuelled by term size (used only by the
Python `in` membership model below). -/
def jeqF : Nat → JsonValue → JsonValue → Bool
  | 0, _, _ => false
  | f + 1, a, b =>
    match a, b with
    | .null, .null => true
    | .bool x, .bool y => x == y
    | .num x, .num y => x == y
    | .str x, .str y => x == y
    | .arr xs, .arr ys =>
      xs.length == ys.length && (xs.zip ys).all (fun p => jeqF f p.1 p.2)
    | .obj xs, .obj ys =>
      xs.length == ys.length &&
        (xs.zip ys).all (fun p => p.1.1 == p.2.1 && jeqF f p.1.2 p.2.2)
    | _, _ => false

/-- Python `k in v` for a string `k`: dict key membership, substring test on
strings, element membership on lists, `TypeError` otherwise. -/
def pyContainsKey (v : JsonValue) (k : String) : Except String Bool :=
  match v with
  | .obj fs => .ok (fs.any (fun kv => kv.1 == k))
  | .str s => .ok (isSubstr k.data s.data)
  | .arr xs => .ok (xs.any (fun x => jeqF (jsonSize x + 1) x (.str k)))
  | _ => .error "TypeError: argument is not iterable"

/-- The field-defaulting loop of `create_dataset` (crewai_setup_working.py
lines 267-277): `if key not in parsed_result: parsed_result[key] = default`,
which raises on non-dict parse results. -/
def ensureFields : JsonValue → List (String × JsonValue) → Except String JsonValue
  | v, [] => .ok v
  | v, (k, d) :: rest =>
    match pyContainsKey v k with
    | .error e => .error e
    | .ok true => ensureFields v rest
    | .ok false =>
      match v with
      | .obj fs => ensureFields (.obj (fs ++ [(k, d)])) rest
      | _ => .error "TypeError: object does not support item assignment"

/-- The defaults applied by `create_dataset` after a successful parse. -/
def crewDefaults : List (String × JsonValue) :=
  [("data", .arr []), ("sources", .arr []),
   ("validation_status", .str "completed"), ("quality_score", .str "unknown"),
   ("validation_notes", .str "")]

/-- The simple structure `create_dataset` returns when the crew text yields
no usable JSON (crewai_setup_working.py lines 258-265, 281-287, 289-295). -/
def mkSimple (q raw note : String) : JsonValue :=
  .obj [("data", .arr [.obj [("query", .str q), ("result", .str raw)]]),
        ("sources", .arr []),
        ("validation_status", .str "completed"),
        ("quality_score", .str "unknown"),
        ("validation_notes", .str note)]

/-- The dict returned by `create_dataset`'s exception handler
(crewai_setup_working.py lines 297-318). -/
def crewErrorDict (msg : String) : JsonValue :=
  if quotaMatch msg then
    .obj [("data", .arr []), ("sources", .arr []),
          ("validation_status", .str "quota_exceeded"),
          ("quality_score", .str "unknown"),
          ("validation_notes", .str ("API quota exceeded: " ++ msg))]
  else
    .obj [("data", .arr []), ("sources", .arr []),
          ("validation_status", .str "failed"),
          ("quality_score", .str "unknown"),
          ("validation_notes", .str ("Error: " ++ msg))]

/-- The result-parsing phase of `WebhoundCrewAI.create_dataset`
(crewai_setup_working.py lines 240-295) applied to the raw crew output text:
fenced block first, then greedy brace search, then the no-JSON fallback; a
parse success is completed with defaults, and an exception inside the
defaulting step is answered by the outer handler's dict.  An empty raw text
models the falsy `result.raw` branch (whose `str(result)` equals the raw
text). -/
def crewParse (q raw : String) : JsonValue :=
  if raw = "" then mkSimple q raw "Workflow completed successfully"
  else
    match fencedSearch raw with
    | some content =>
      match jsonParse (pyStrip content) with
      | some pj =>
        match ensureFields pj crewDefaults with
        | .ok v => v
        | .error e => crewErrorDict e
      | none => mkSimple q raw "JSON parsing failed, but workflow completed"
    | none =>
      match braceSearch raw with
      | some b =>
        match jsonParse b with
        | some pj =>
          match ensureFields pj crewDefaults with
          | .ok v => v
          | .error e => crewErrorDict e
        | none => mkSimple q raw "JSON parsing failed, but workflow completed"
      | none => mkSimple q raw "No JSON found in result"

/-- A Python `datetime` value (naive, microsecond precision). -/
structure PyDateTime where
  year : Nat
  month : Nat
  day : Nat
  hour : Nat
  minute : Nat
  second : Nat
  micro : Nat
deriving DecidableEq

/-- Gregorian leap-year rule. -/
def isLeap (y : Nat) : Bool :=
  y % 4 = 0 && (y % 100 ≠ 0 || y % 400 = 0)

/-- Days in a month, as `datetime.replace` validates. -/
def daysInMonth (y m : Nat) : Nat :=
  if m = 2 then (if isLeap y then 29 else 28)
  else if m = 4 ∨ m = 6 ∨ m = 9 ∨ m = 11 then 30
  else 31

/-- Lexicographic strict order on natural-number lists. -/
def natListLt : List Nat → List Nat → Bool
  | [], [] => false
  | [], _ :: _ => true
  | _ :: _, [] => false
  | a :: as, b :: bs => if a < b then true else if b < a then false else natListLt as bs

/-- Chronological components of a datetime. -/
def dtKey (d : PyDateTime) : List Nat :=
  [d.year, d.month, d.day, d.hour, d.minute, d.second, d.micro]

/-- Chronological strict order, which also models the ISO-format string
comparison SQLite applies to stored timestamps. -/
def dtLt (a b : PyDateTime) : Bool := natListLt (dtKey a) (dtKey b)

/-- `datetime.replace(hour=0, minute=0, second=0, microsecond=0)`. -/
def replaceMidnight (d : PyDateTime) : PyDateTime :=
  { d with hour := 0, minute := 0, second := 0, micro := 0 }

/-- `datetime.replace(day=nd)`: raises `ValueError` unless `nd` is a valid
day of the datetime's month. -/
def replaceDay (d : PyDateTime) (nd : Int) : Except String PyDateTime :=
  if 1 ≤ nd ∧ nd ≤ (daysInMonth d.year d.month : Int) then
    .ok { d with day := nd.toNat }
  else .error "ValueError: day is out of range for month"

/-- One row of the `jobs` table (`database.py`); `Option` fields are SQL
`NULL` until set. -/
structure Job where
  job_id : String
  query : String
  status : String
  dataset : Option JsonValue := none
  sources : Option JsonValue := none
  raw_data : Option JsonValue := none
  total_records : Nat := 0
  validation_status : Option JsonValue := none
  quality_score : Option JsonValue := none
  validation_notes : Option JsonValue := none
  user_rating : Option String := none
  rating_timestamp : Option PyDateTime := none
  created_at : PyDateTime
  updated_at : PyDateTime

/-- `JobDatabase.create_job`: insert with status `processing`, result columns
left at their defaults. -/
def newJob (id q : String) (t : PyDateTime) : Job :=
  { job_id := id, query := q, status := "processing", created_at := t, updated_at := t }

/-- `JobDatabase.update_job`: merge the present kwargs into the row and stamp
`updated_at`. -/
def applyUpd (j : Job) (u : Upd) (t : PyDateTime) : Job :=
  { job_id := j.job_id
    query := j.query
    status := u.status.getD j.status
    dataset := match u.dataset with | some v => some v | none => j.dataset
    sources := match u.sources with | some v => some v | none => j.sources
    raw_data := match u.raw_data with | some v => some v | none => j.raw_data
    total_records := u.total_records.getD j.total_records
    validation_status :=
      match u.validation_status with | some v => some v | none => j.validation_status
    quality_score :=
      match u.quality_score with | some v => some v | none => j.quality_score
    validation_notes :=
      match u.validation_notes with | some v => some v | none => j.validation_notes
    user_rating := match u.user_rating with | some v => some v | none => j.user_rating
    rating_timestamp := j.rating_timestamp
    created_at := j.created_at
    updated_at := t }

/-- The rating mutation of `JobDatabase.rate_job`: sets only `user_rating`,
`rating_timestamp` and `updated_at`. -/
def rateMut (j : Job) (rating : String) (t : PyDateTime) : Job :=
  { j with user_rating := some rating, rating_timestamp := some t, updated_at := t }

/-- `JobDatabase.get_job`: first row with the given id. -/
def getJob (store : List Job) (jid : String) : Option Job :=
  store.find? (fun j => j.job_id == jid)

/-- `JobDatabase.rate_job` over the whole table: value check first, then
`UPDATE ... WHERE job_id = ?`, returning `rowcount > 0`. -/
def dbRateJob (store : List Job) (jid rating : String) (t : PyDateTime) :
    Bool × List Job :=
  if rating = "good_dog" ∨ rating = "bad_dog" then
    (store.any (fun j => j.job_id == jid),
     store.map (fun j => if j.job_id == jid then rateMut j rating t else j))
  else (false, store)

/-- HTTP-level outcome of an endpoint call. -/
inductive ApiResp where
  | success : String → String → ApiResp
  | failure : Nat → String → ApiResp

/-- The `rate_job` endpoint (main.py lines 367-395): 400 on a rating outside
the two enumerated values, then 404 on an unknown job, then the store
update. -/
def rateJobApi (store : List Job) (jid rating : String) (t : PyDateTime) :
    ApiResp × List Job :=
  if rating ≠ "good_dog" ∧ rating ≠ "bad_dog" then
    (.failure 400 "Rating must be \x27good_dog\x27 or \x27bad_dog\x27", store)
  else
    match getJob store jid with
    | none => (.failure 404 "Job not found", store)
    | some _ =>
      let r := dbRateJob store jid rating t
      if r.1 then (.success jid rating, r.2)
      else (.failure 500 "Failed to update rating", r.2)

/-- Python division, raising `ZeroDivisionError` on a zero divisor (exact
rational arithmetic stands in for floats). -/
def pyDivQ (a b : ℚ) : Except String ℚ :=
  if b = 0 then .error "ZeroDivisionError: division by zero" else .ok (a / b)

/-- Round-half-to-even on rationals, as Python `round` ties. -/
def roundHalfEven (x : ℚ) : ℤ :=
  let f := ⌊x⌋
  let r := x - f
  if r < 1 / 2 then f
  else if 1 / 2 < r then f + 1
  else if f % 2 = 0 then f else f + 1

/-- Python `round(x, 1)` (on the exact-rational model of the float value). -/
def round1 (x : ℚ) : ℚ := (roundHalfEven (x * 10) : ℚ) / 10

/-- The aggregate record returned by `JobDatabase.get_job_rating_stats`. -/
structure RatingStatsRec where
  total_rated : Nat
  good_dogs : Nat
  bad_dogs : Nat
  good_percentage : ℚ
  bad_percentage : ℚ

/-- Count of rows with `user_rating IS NOT NULL`. -/
def totalRated (store : List Job) : Nat :=
  store.countP (fun j => j.user_rating.isSome)

/-- Count of rows rated `good_dog`. -/
def goodCount (store : List Job) : Nat :=
  store.countP (fun j => j.user_rating == some "good_dog")

/-- Count of rows rated `bad_dog`. -/
def badCount (store : List Job) : Nat :=
  store.countP (fun j => j.user_rating == some "bad_dog")

/-- `JobDatabase.get_job_rating_stats` (database.py lines 224-251): counts,
then guarded percentage computation, then one-decimal rounding. -/
def getJobRatingStats (store : List Job) : Except String RatingStatsRec :=
  let total := totalRated store
  let good := goodCount store
  let bad := badCount store
  let gp := if 0 < total then (pyDivQ good total).map (· * 100) else .ok 0
  let bp := if 0 < total then (pyDivQ bad total).map (· * 100) else .ok 0
  match gp, bp with
  | .ok g, .ok b =>
    .ok { total_rated := total, good_dogs := good, bad_dogs := bad,
          good_percentage := round1 g, bad_percentage := round1 b }
  | .error e, _ => .error e
  | _, .error e => .error e

/-- `JobDatabase.cleanup_old_jobs` (database.py lines 167-178): truncate now
to midnight, move the cutoff with `replace(day=day - days)`, then delete the
strictly older rows and return the deleted count. -/
def cleanupOldJobs (store : List Job) (days : Nat) (now : PyDateTime) :
    Except String (Nat × List Job) :=
  let c0 := replaceMidnight now
  match replaceDay c0 ((c0.day : Int) - (days : Int)) with
  | .error e => .error e
  | .ok cutoff =>
    .ok ((store.filter (fun j => dtLt j.created_at cutoff)).length,
         store.filter (fun j => !dtLt j.created_at cutoff))

/-- The update calls the orchestrator can issue against a job created for
query `q`: the raw-payload write, the three terminal updates of
`process_dataset`, and the rating mutation (modelled at the `Upd` level for
lifecycle reasoning; `completed` carries the fields Step 3 actually
computed). -/
inductive OrchUpd (q : String) : Upd → Prop
  | raw (p : JsonValue) : OrchUpd q (rawUpd p)
  | quota3 (p : JsonValue) : isQuotaDict p = true → OrchUpd q quotaUpd3
  | completed (p : JsonValue) (f : CompletedFields) :
      step3and4 q p = .ok f → OrchUpd q (completedUpd f)
  | err (msg : String) : OrchUpd q (errorUpd msg)

/-- Job states reachable in the store for a job submitted with query `q`:
creation, the orchestrator's updates in any order, and rating mutations. -/
inductive Reach (q : String) : Job → Prop
  | created (id : String) (t : PyDateTime) : Reach q (newJob id q t)
  | step (j : Job) (u : Upd) (t : PyDateTime) :
      Reach q j → OrchUpd q u → Reach q (applyUpd j u t)
  | rate (j : Job) (r : String) (t : PyDateTime) :
      Reach q j → (r = "good_dog" ∨ r = "bad_dog") → Reach q (rateMut j r t)

/-- Decision for "no JSON can be parsed out of this crew text": the fenced
block (if any) fails to parse, and otherwise the brace substring (if any)
fails to parse. -/
def noParseableJson (raw : String) : Bool :=
  match fencedSearch raw with
  | some c => (jsonParse (pyStrip c)).isNone
  | none =>
    match braceSearch raw with
    | some b => (jsonParse b).isNone
    | none => true

/-- Claim C1 as stated: on a payload whose `data` list's first element carries
`result` text without a fenced code block, the extractor parses the first
greedy brace-delimited substring as JSON and uses its `data` field. -/
def C1Prop : Prop :=
  ∀ (q : String) (fs : List (String × JsonValue)) (item : JsonValue)
    (rest : List JsonValue) (text b : String) (pj : JsonValue),
    objGet? (.obj fs) "data" = some (.arr (item :: rest)) →
    objGet? item "result" = some (.str text) →
    fencedSearch text = none →
    braceSearch text = some b →
    jsonParse b = some pj →
    ∃ f, step3and4 q (.obj fs) = .ok f ∧ f.dataset = objGetD pj "data" (.arr [])

/-- Discriminator separating the two candidate record lists of the C1
counterexample: does the first element have an `a` field? -/
def headHasA (v : JsonValue) : Bool :=
  match v with
  | .arr (x :: _) => (objGet? x "a").isSome
  | _ => false

/-- Result text of the C1 counterexample: brace-delimited JSON, no fence. -/
def c1Text : String := "\x7b\"data\": [\x7b\"a\": 1\x7d]\x7d"

/-- First (and only) element of the counterexample payload's `data` list. -/
def c1Item : JsonValue := .obj [("result", .str c1Text)]

/-- The C1 counterexample payload. -/
def c1Payload : JsonValue := .obj [("data", .arr [c1Item])]

/-- What `json.loads` yields on the counterexample's brace substring. -/
def c1Parsed : JsonValue := .obj [("data", .arr [.obj [("a", .num 1)]])]

/-- Result text of the spec's round-trip example (claim C8). -/
def c8Text : String :=
  "```json\n\x7b\"data\":[\x7b\"a\":1\x7d],\"sources\":[\"u\"]\x7d\n```"

/-- Fenced-block body of the C8 example. -/
def c8Content : String := "\x7b\"data\":[\x7b\"a\":1\x7d],\"sources\":[\"u\"]\x7d"

/-- First element of the C8 payload's `data` list. -/
def c8Item : JsonValue := .obj [("result", .str c8Text)]

/-- The raw payload of the spec's round-trip example. -/
def c8Payload : JsonValue := .obj [("data", .arr [c8Item])]

/-- What `json.loads` yields on the C8 fenced-block body. -/
def c8Parsed : List (String × JsonValue) :=
  [("data", .arr [.obj [("a", .num 1)]]), ("sources", .arr [.str "u"])]

/-- A concrete timestamp used by witnesses (2026-10-12 09:30:00). -/
def dt0 : PyDateTime := ⟨2026, 10, 12, 9, 30, 0, 0⟩

/-- A later concrete timestamp. -/
def dt1 : PyDateTime := ⟨2026, 10, 12, 10, 0, 0, 0⟩

/-- A still later concrete timestamp. -/
def dt2 : PyDateTime := ⟨2026, 10, 12, 11, 0, 0, 0⟩

/-- A job created on 2020-01-01, far older than any reasonable cutoff. -/
def jobOld : Job := newJob "old" "ancient query" ⟨2020, 1, 1, 0, 0, 0, 0⟩

/-- Witness job for the lifecycle invariant: created, then driven to failed
by a pipeline error. -/
def jobFailedW : Job := applyUpd (newJob "id1" "q" dt0) (errorUpd "boom") dt1

/-- Witness job for the rating claims. -/
def jobW : Job := newJob "a" "q0" dt0

/-- Witness store for the rating claims. -/
def storeW : List Job := [jobW]

/-- Claim C3: the purge operation is supposed to delete exactly the jobs
created strictly before the N-days-ago midnight cutoff and return their
count without raising; the code instead computes the cutoff with
`datetime.replace(day=day - days)`, which raises `ValueError` whenever
`days` reaches the current day of month — here `days = 30` on 2026-10-12
raises and deletes nothing, even though the store holds a job from 2020. -/
theorem cleanup_old_jobs_raises_on_2026_10_12 :
    cleanupOldJobs [jobOld] 30 dt0 = .error "ValueError: day is out of range for month" := by
  rfl

/-- Claim C9: the rate endpoint checks the rating value before job existence:
any rating outside the two enumerated values yields 400 and leaves the store
untouched, regardless of whether the job id exists. -/
theorem rate_endpoint_validates_value_first (store : List Job) (jid r : String)
    (t : PyDateTime) (h1 : r ≠ "good_dog") (h2 : r ≠ "bad_dog") :
    rateJobApi store jid r t =
      (.failure 400 "Rating must be \x27good_dog\x27 or \x27bad_dog\x27", store) := by
  simp [rateJobApi, h1, h2]

/-- Witness for C9: rating value `approve` on an id absent from the store is
answered 400 with the store unchanged. -/
theorem rate_endpoint_validates_value_first_witness :
    rateJobApi [] "missing" "approve" dt0 =
      (.failure 400 "Rating must be \x27good_dog\x27 or \x27bad_dog\x27", []) :=
  rate_endpoint_validates_value_first [] "missing" "approve" dt0
    (by decide) (by decide)

/-- Claim C4: an exception from the pipeline invocation whose message,
lowercased, contains one of the five quota keywords drives the job to
`quota_exceeded` (not `failed`) with empty records/sources and the original
error text embedded in `validation_notes`; any other exception drives it to
`failed`, also with empty records and the error text in the notes. -/
theorem pipeline_error_classification (q msg : String) :
    processDataset q (.error msg) =
      [if (["quota", "429", "resourceexhausted", "rate limit", "exceeded"].any
            fun k => isSubstr k.data (pyLower msg).data) then
        { status := some "quota_exceeded"
          dataset := some (.arr [])
          sources := some (.arr [])
          total_records := some 0
          validation_status := some (.str "quota_exceeded")
          quality_score := some (.str "unknown")
          validation_notes := some (.str ("API quota exceeded: " ++ msg ++
            ". Please try again later or upgrade your plan.")) }
       else
        { status := some "failed"
          dataset := some (.arr [])
          sources := some (.arr [])
          total_records := some 0
          validation_status := some (.str "failed")
          quality_score := some (.str "unknown")
          validation_notes := some (.str ("Error: " ++ msg)) }] ∧
    ∀ (j : Job) (t : PyDateTime),
      (applyUpd j (errorUpd msg) t).status =
        if quotaMatch msg then "quota_exceeded" else "failed" := by
  constructor
  · show [errorUpd msg] = _
    unfold errorUpd quotaMatch quotaKeywords
    split <;> rfl
  · intro j t
    unfold applyUpd errorUpd
    by_cases hm : quotaMatch msg <;> simp [hm]

/-- Claim C6: whenever the pipeline returns a payload, `process_dataset`
writes `raw_data` first (a pure raw write, no status), exactly once; the
single following update carries the terminal status and never touches
`raw_data`; and the rating mutation leaves `raw_data` unchanged. -/
theorem raw_result_written_once_before_terminal (q : String) (p : JsonValue) :
    ∃ u, processDataset q (.ok p) = [rawUpd p, u] ∧
      (rawUpd p).raw_data = some p ∧
      (rawUpd p).status = none ∧
      u.raw_data = none ∧
      (u.status = some "completed" ∨ u.status = some "failed" ∨
        u.status = some "quota_exceeded") ∧
      ∀ (j : Job) (r : String) (t : PyDateTime),
        (rateMut j r t).raw_data = j.raw_data := by
  by_cases hq : isQuotaDict p
  · exact ⟨quotaUpd3, by simp [processDataset, hq], rfl, rfl, rfl,
      Or.inr (Or.inr rfl), fun j r t => rfl⟩
  · cases hs : step3and4 q p with
    | ok f =>
      exact ⟨completedUpd f, by simp [processDataset, hq, hs], rfl, rfl, rfl,
        Or.inl rfl, fun j r t => rfl⟩
    | error e =>
      refine ⟨errorUpd e, by simp [processDataset, hq, hs], rfl, rfl, ?_, ?_,
        fun j r t => rfl⟩
      · unfold errorUpd; split <;> rfl
      · unfold errorUpd
        by_cases hm : quotaMatch e <;> simp [hm]

/-- Claim C10: the rating-statistics query never divides by zero: it always
returns a record; with no rated jobs both percentages are 0, and otherwise
each percentage is count over total times 100, rounded to one decimal. -/
theorem rating_stats_no_division_by_zero (store : List Job) :
    getJobRatingStats store =
      .ok { total_rated := totalRated store
            good_dogs := goodCount store
            bad_dogs := badCount store
            good_percentage :=
              if totalRated store = 0 then 0
              else round1 ((goodCount store : ℚ) / (totalRated store : ℚ) * 100)
            bad_percentage :=
              if totalRated store = 0 then 0
              else round1 ((badCount store : ℚ) / (totalRated store : ℚ) * 100) } := by
  unfold getJobRatingStats
  rcases Nat.eq_zero_or_pos (totalRated store) with h0 | hpos
  · simp [h0, round1, roundHalfEven]
  · have hne : totalRated store ≠ 0 := Nat.pos_iff_ne_zero.mp hpos
    have hq : ((totalRated store : ℚ)) ≠ 0 := by exact_mod_cast hne
    simp [hpos, hne, pyDivQ, hq, Except.map]

/-- Helper: when the embedded text has no fenced code block, Step 3 falls
back to the outer structure. -/
theorem parseFenced_of_none {d rd : JsonValue} {s : String}
    (h : fencedSearch s = none) : parseFenced d rd s = fallbackUpd d rd := by
  unfold parseFenced
  rw [h]

/-- Helper: when the fenced block's body fails to parse, Step 3 falls back to
the outer structure. -/
theorem parseFenced_of_noparse {d rd : JsonValue} {s c : String}
    (h : fencedSearch s = some c) (hp : jsonParse (pyStrip c) = none) :
    parseFenced d rd s = fallbackUpd d rd := by
  unfold parseFenced
  rw [h]
  simp only [hp]

/-- Helper: on the simple fallback payload, Step 3 of `process_dataset`
re-runs the fenced search on the embedded `result` text; when that yields no
parse, the Step 4 fields are the pass-through of the payload. -/
theorem step3and4_mkSimple (q raw note : String)
    (hf : ∀ c, fencedSearch raw = some c → jsonParse (pyStrip c) = none) :
    step3and4 q (mkSimple q raw note) =
      .ok { dataset := .arr [.obj [("query", .str q), ("result", .str raw)]]
            sources := .arr []
            total_records := 1
            validation_status := .str "completed"
            quality_score := .str "unknown"
            validation_notes := .str note } := by
  have h1 : step3and4 q (mkSimple q raw note) =
      parseFenced (mkSimple q raw note)
        (.arr [.obj [("query", .str q), ("result", .str raw)]]) raw := rfl
  rw [h1]
  cases hfs : fencedSearch raw with
  | none =>
    rw [parseFenced_of_none hfs]
    rfl
  | some c =>
    rw [parseFenced_of_noparse hfs (hf c hfs)]
    rfl

/-- Claim C2: for every crew text from which no JSON can be parsed (fenced
block absent or unparseable, brace substring absent or unparseable), the
extraction step completes without raising, the records are the single-element
pass-through of the outer `data` list, and `validation_notes` is non-empty. -/
theorem no_parseable_json_fallback (q raw : String)
    (h : noParseableJson raw = true) :
    ∃ f : CompletedFields,
      processDataset q (.ok (crewParse q raw)) =
        [rawUpd (crewParse q raw), completedUpd f] ∧
      f.dataset = .arr [.obj [("query", .str q), ("result", .str raw)]] ∧
      ∃ s : String, f.validation_notes = .str s ∧ s ≠ "" := by
  have key : ∃ note : String,
      (note = "Workflow completed successfully" ∨
       note = "JSON parsing failed, but workflow completed" ∨
       note = "No JSON found in result") ∧
      crewParse q raw = mkSimple q raw note ∧
      (∀ c, fencedSearch raw = some c → jsonParse (pyStrip c) = none) := by
    by_cases hraw : raw = ""
    · subst hraw
      refine ⟨"Workflow completed successfully", Or.inl rfl, by simp [crewParse], ?_⟩
      intro c hc
      rw [show fencedSearch "" = none from rfl] at hc
      exact Option.noConfusion hc
    · unfold noParseableJson at h
      cases hfs : fencedSearch raw with
      | some c =>
        rw [hfs] at h
        simp only [Option.isNone_iff_eq_none] at h
        refine ⟨"JSON parsing failed, but workflow completed", Or.inr (Or.inl rfl),
          ?_, ?_⟩
        · unfold crewParse
          rw [if_neg hraw, hfs]
          simp only [h]
        · intro c' hc'
          cases hc'
          exact h
      | none =>
        rw [hfs] at h
        cases hbs : braceSearch raw with
        | some b =>
          rw [hbs] at h
          simp only [Option.isNone_iff_eq_none] at h
          refine ⟨"JSON parsing failed, but workflow completed", Or.inr (Or.inl rfl),
            ?_, ?_⟩
          · unfold crewParse
            rw [if_neg hraw, hfs, hbs]
            simp only [h]
          · intro c' hc'
            exact Option.noConfusion hc'
        | none =>
          refine ⟨"No JSON found in result", Or.inr (Or.inr rfl), ?_, ?_⟩
          · unfold crewParse
            rw [if_neg hraw, hfs, hbs]
          · intro c' hc'
            exact Option.noConfusion hc'
  obtain ⟨note, hnote, hcp, hf⟩ := key
  refine ⟨{ dataset := .arr [.obj [("query", .str q), ("result", .str raw)]]
            sources := .arr []
            total_records := 1
            validation_status := .str "completed"
            quality_score := .str "unknown"
            validation_notes := .str note }, ?_, rfl, note, rfl, ?_⟩
  · rw [hcp]
    have hq : isQuotaDict (mkSimple q raw note) = false := rfl
    simp only [processDataset, hq, Bool.false_eq_true, if_false,
      step3and4_mkSimple q raw note hf]
  · rcases hnote with h1 | h1 | h1 <;> simp [h1]

/-- Witness for C2: the crew text `no json here` falls through both searches
and yields the pass-through single-element records with non-empty notes. -/
theorem no_parseable_json_fallback_witness :
    noParseableJson "no json here" = true ∧
    ∃ f : CompletedFields,
      processDataset "q" (.ok (crewParse "q" "no json here")) =
        [rawUpd (crewParse "q" "no json here"), completedUpd f] ∧
      f.dataset = .arr [.obj [("query", .str "q"), ("result", .str "no json here")]] ∧
      ∃ s : String, f.validation_notes = .str s ∧ s ≠ "" :=
  ⟨by decide, no_parseable_json_fallback "q" "no json here" (by decide)⟩

/-- Helper: a successful key lookup forces the value to be an object. -/
theorem objGet_isObj {v : JsonValue} {k : String} {r : JsonValue}
    (h : objGet? v k = some r) : ∃ fs, v = .obj fs := by
  cases v <;> simp [objGet?] at h ⊢

/-- Helper: on a payload whose `data` list's first element carries `result`
text, Step 3 of `process_dataset` reduces to the fenced-block branch on that
text. -/
theorem step3and4_result_text (q : String) (fs : List (String × JsonValue))
    (item : JsonValue) (rest : List JsonValue) (text : String)
    (h1 : objGet? (.obj fs) "data" = some (.arr (item :: rest)))
    (h2 : objGet? item "result" = some (.str text)) :
    step3and4 q (.obj fs) = parseFenced (.obj fs) (.arr (item :: rest)) text := by
  obtain ⟨ifs, rfl⟩ := objGet_isObj h2
  have hd : objGetD (.obj fs) "data" (.arr []) = .arr (JsonValue.obj ifs :: rest) := by
    unfold objGetD
    rw [h1]
    rfl
  simp only [step3and4]
  rw [hd]
  simp only [pyTruthy, List.isEmpty_cons, Bool.not_false, if_true, pyLen,
    List.length_cons, Nat.succ_pos, pyIndex0, h2]

/-- Claim C1, amended: on a payload whose `data` list's first element carries
`result` text with no fenced code block, the extractor falls back directly to
the outer `data` list; it performs no brace-delimited-substring parse (the
greedy brace search exists only in the pipeline runner's parsing of the raw
crew text in `create_dataset`, before this payload shape exists). -/
theorem extractor_no_brace_fallback (q : String) (fs : List (String × JsonValue))
    (item : JsonValue) (rest : List JsonValue) (text : String)
    (h1 : objGet? (.obj fs) "data" = some (.arr (item :: rest)))
    (h2 : objGet? item "result" = some (.str text))
    (h3 : fencedSearch text = none) :
    step3and4 q (.obj fs) =
      .ok { dataset := .arr (item :: rest)
            sources := objGetD (.obj fs) "sources" (.arr [])
            total_records := rest.length + 1
            validation_status := objGetD (.obj fs) "validation_status" (.str "completed")
            quality_score := objGetD (.obj fs) "quality_score" (.str "unknown")
            validation_notes := objGetD (.obj fs) "validation_notes" (.str "") } := by
  rw [step3and4_result_text q fs item rest text h1 h2, parseFenced_of_none h3]
  unfold fallbackUpd
  simp only [pyLen, List.length_cons]

/-- Witness for the amended C1: the concrete payload whose `result` text is
brace-delimited JSON without a fence is passed through untouched. -/
theorem extractor_no_brace_fallback_witness :
    objGet? c1Payload "data" = some (.arr [c1Item]) ∧
    objGet? c1Item "result" = some (.str c1Text) ∧
    fencedSearch c1Text = none ∧
    step3and4 "q" c1Payload =
      .ok { dataset := .arr [c1Item]
            sources := .arr []
            total_records := 1
            validation_status := .str "completed"
            quality_score := .str "unknown"
            validation_notes := .str "" } :=
  ⟨rfl, rfl, rfl,
    extractor_no_brace_fallback "q" [("data", .arr [c1Item])] c1Item [] c1Text
      rfl rfl rfl⟩

/-- Counterexample to claim C1 as stated: for the payload whose `result` text
is `\x7b"data": [\x7b"a": 1\x7d]\x7d` (a parseable greedy brace substring, no fenced
block), the extractor does not parse the brace substring - its records keep
the outer `data` list, not the parsed JSON's `data` array. -/
theorem brace_fallback_claim_false : ¬ C1Prop := by
  intro h
  obtain ⟨f, hf, hd⟩ :=
    h "q" [("data", .arr [c1Item])] c1Item [] c1Text c1Text c1Parsed
      rfl rfl rfl rfl rfl
  have hact : step3and4 "q" (.obj [("data", .arr [c1Item])]) =
      .ok { dataset := .arr [c1Item]
            sources := .arr []
            total_records := 1
            validation_status := .str "completed"
            quality_score := .str "unknown"
            validation_notes := .str "" } := rfl
  rw [hact] at hf
  have hfe := Except.ok.inj hf
  rw [show f.dataset = .arr [c1Item] from by rw [← hfe]] at hd
  have hba := congrArg headHasA hd
  rw [show headHasA (.arr [c1Item]) = false from rfl,
      show headHasA (objGetD c1Parsed "data" (.arr [])) = true from rfl] at hba
  exact Bool.noConfusion hba

/-- Helper: when the fenced block parses to an object, Step 3 takes the five
fields from the parsed object. -/
theorem parseFenced_of_parse {dd rd : JsonValue} {s c : String}
    {po : List (String × JsonValue)}
    (h : fencedSearch s = some c) (hp : jsonParse (pyStrip c) = some (.obj po)) :
    parseFenced dd rd s =
      match pyLen (objGetD (.obj po) "data" (.arr [])) with
      | .error e => .error e
      | .ok n =>
        .ok { dataset := objGetD (.obj po) "data" (.arr [])
              sources := objGetD (.obj po) "sources" (.arr [])
              total_records := n
              validation_status := objGetD (.obj po) "validation_status" (.str "completed")
              quality_score := objGetD (.obj po) "quality_score" (.str "unknown")
              validation_notes := objGetD (.obj po) "validation_notes" (.str "") } := by
  unfold parseFenced
  rw [h]
  simp only [hp]

/-- Claim C8: for every payload whose `data` list's first element carries
`result` text containing a fenced code block that parses to a JSON object
with a `data` array (and which is not already quota-marked), extraction
succeeds and the records equal that array exactly, with sources taken from
the parsed object; the run writes the raw payload and then the completed
update. -/
theorem fenced_roundtrip (q : String) (fs : List (String × JsonValue))
    (item : JsonValue) (rest : List JsonValue) (text c : String)
    (po : List (String × JsonValue)) (d : List JsonValue)
    (h1 : objGet? (.obj fs) "data" = some (.arr (item :: rest)))
    (h2 : objGet? item "result" = some (.str text))
    (h3 : fencedSearch text = some c)
    (h4 : jsonParse (pyStrip c) = some (.obj po))
    (h5 : objGet? (.obj po) "data" = some (.arr d))
    (h6 : isQuotaDict (.obj fs) = false) :
    ∃ f, step3and4 q (.obj fs) = .ok f ∧
      f.dataset = .arr d ∧
      f.sources = objGetD (.obj po) "sources" (.arr []) ∧
      f.total_records = d.length ∧
      processDataset q (.ok (.obj fs)) = [rawUpd (.obj fs), completedUpd f] := by
  have hd5 : objGetD (.obj po) "data" (.arr []) = .arr d := by
    unfold objGetD
    rw [h5]
    rfl
  have hstep : step3and4 q (.obj fs) =
      .ok { dataset := .arr d
            sources := objGetD (.obj po) "sources" (.arr [])
            total_records := d.length
            validation_status := objGetD (.obj po) "validation_status" (.str "completed")
            quality_score := objGetD (.obj po) "quality_score" (.str "unknown")
            validation_notes := objGetD (.obj po) "validation_notes" (.str "") } := by
    rw [step3and4_result_text q fs item rest text h1 h2,
      parseFenced_of_parse h3 h4, hd5]
    simp only [pyLen]
  refine ⟨_, hstep, rfl, rfl, rfl, ?_⟩
  simp only [processDataset, h6, Bool.false_eq_true, if_false, hstep]

/-- Witness for C8: the spec's example payload round-trips to records
`[ \x7b a : 1 \x7d ]` and sources `["u"]`. -/
theorem fenced_roundtrip_witness :
    objGet? c8Payload "data" = some (.arr [c8Item]) ∧
    objGet? c8Item "result" = some (.str c8Text) ∧
    fencedSearch c8Text = some c8Content ∧
    jsonParse (pyStrip c8Content) = some (.obj c8Parsed) ∧
    isQuotaDict c8Payload = false ∧
    ∃ f, step3and4 "q" c8Payload = .ok f ∧
      f.dataset = .arr [.obj [("a", .num 1)]] ∧
      f.sources = .arr [.str "u"] ∧
      f.total_records = 1 ∧
      processDataset "q" (.ok c8Payload) = [rawUpd c8Payload, completedUpd f] :=
  ⟨rfl, rfl, rfl, rfl, rfl,
    fenced_roundtrip "q" [("data", .arr [c8Item])] c8Item [] c8Text c8Content
      c8Parsed [.obj [("a", .num 1)]] rfl rfl rfl rfl rfl rfl⟩

/-- Claim C5: in every reachable job state, `dataset` and `sources` are empty
(NULL or the empty list) unless the status is `completed`: fresh jobs and
jobs driven to `failed` or `quota_exceeded` always have empty records and
sources. -/
theorem records_sources_empty_unless_completed (q : String) (j : Job)
    (h : Reach q j) :
    j.status ≠ "completed" →
    (j.dataset = none ∨ j.dataset = some (.arr [])) ∧
    (j.sources = none ∨ j.sources = some (.arr [])) := by
  induction h with
  | created id t => exact fun _ => ⟨Or.inl rfl, Or.inl rfl⟩
  | step j u t hr hu ih =>
    cases hu with
    | raw p => exact fun hs => ih hs
    | quota3 p hp => exact fun _ => ⟨Or.inr rfl, Or.inr rfl⟩
    | completed p f hf => exact fun hs => absurd rfl hs
    | err msg =>
      intro _
      constructor
      · right
        show (applyUpd j (errorUpd msg) t).dataset = some (.arr [])
        unfold applyUpd errorUpd
        by_cases hm : quotaMatch msg <;> simp [hm]
      · right
        show (applyUpd j (errorUpd msg) t).sources = some (.arr [])
        unfold applyUpd errorUpd
        by_cases hm : quotaMatch msg <;> simp [hm]
  | rate j r t hr hv ih => exact fun hs => ih hs

/-- Witness for C5: a job created and then driven to `failed` by a pipeline
error has empty dataset and sources. -/
theorem records_sources_empty_unless_completed_witness :
    jobFailedW.status ≠ "completed" ∧
    ((jobFailedW.dataset = none ∨ jobFailedW.dataset = some (.arr [])) ∧
     (jobFailedW.sources = none ∨ jobFailedW.sources = some (.arr []))) :=
  ⟨by decide,
    records_sources_empty_unless_completed "q" jobFailedW
      (Reach.step (newJob "id1" "q" dt0) (errorUpd "boom") dt1
        (Reach.created "id1" dt0) (OrchUpd.err "boom"))
      (by decide)⟩

/-- Helper: `get_job` commutes with an id-preserving per-row update. -/
theorem getJob_map (store : List Job) (jid : String) (f : Job → Job)
    (hf : ∀ j, (f j).job_id = j.job_id) :
    getJob (store.map f) jid = (getJob store jid).map f := by
  induction store with
  | nil => rfl
  | cons a t ih =>
    by_cases ha : (a.job_id == jid) = true
    · have h1 : List.find? (fun x => x.job_id == jid) (a :: t) = some a :=
        List.find?_cons_of_pos _ ha
      have h2 : List.find? (fun x => x.job_id == jid) (f a :: t.map f) = some (f a) :=
        List.find?_cons_of_pos _ (by rw [hf a]; exact ha)
      simp [getJob, List.map_cons, h1, h2]
    · have h1 : List.find? (fun x => x.job_id == jid) (a :: t) =
          List.find? (fun x => x.job_id == jid) t :=
        List.find?_cons_of_neg _ ha
      have h2 : List.find? (fun x => x.job_id == jid) (f a :: t.map f) =
          List.find? (fun x => x.job_id == jid) (t.map f) :=
        List.find?_cons_of_neg _ (by rw [hf a]; exact ha)
      unfold getJob at ih ⊢
      rw [List.map_cons, h1, h2, ih]

/-- Helper: for a valid rating value and an existing job, the store after the
rate endpoint is the per-row rating update. -/
theorem rateJobApi_valid_store (store : List Job) (jid r : String) (t : PyDateTime)
    (hr : r = "good_dog" ∨ r = "bad_dog") (hj : ∃ j, getJob store jid = some j) :
    (rateJobApi store jid r t).2 =
      store.map (fun x => if x.job_id == jid then rateMut x r t else x) := by
  obtain ⟨j, hjj⟩ := hj
  have hval : ¬(r ≠ "good_dog" ∧ r ≠ "bad_dog") := by
    rcases hr with h | h <;> simp [h]
  simp only [rateJobApi, if_neg hval, hjj]
  simp only [dbRateJob, if_pos hr]
  by_cases han : store.any (fun x => x.job_id == jid) <;> simp [han]

/-- Claim C7: rating an existing job with the first enumerated value and then
the second leaves every field except the rating value, its timestamp and
`updated_at` unchanged - in particular the status - and leaves `user_rating`
equal to the second value.  (The spec's abstract `approve`/`reject` names
denote the code's enumerated pair `good_dog`/`bad_dog`.) -/
theorem rate_then_rerate (store : List Job) (jid : String) (j : Job)
    (t1 t2 : PyDateTime) (h : getJob store jid = some j) :
    getJob ((rateJobApi ((rateJobApi store jid "good_dog" t1).2)
        jid "bad_dog" t2).2) jid =
      some { j with user_rating := some "bad_dog", rating_timestamp := some t2,
                    updated_at := t2 } := by
  have hid := List.find?_some (show store.find? (fun x => x.job_id == jid) = some j from h)
  have hpres1 : ∀ x : Job,
      ((if x.job_id == jid then rateMut x "good_dog" t1 else x) : Job).job_id
        = x.job_id := by
    intro x
    split <;> rfl
  have hpres2 : ∀ x : Job,
      ((if x.job_id == jid then rateMut x "bad_dog" t2 else x) : Job).job_id
        = x.job_id := by
    intro x
    split <;> rfl
  have hs1 := rateJobApi_valid_store store jid "good_dog" t1 (Or.inl rfl) ⟨j, h⟩
  have hg1 : getJob (store.map
      (fun x => if x.job_id == jid then rateMut x "good_dog" t1 else x)) jid =
      some (if j.job_id == jid then rateMut j "good_dog" t1 else j) := by
    rw [getJob_map store jid _ hpres1, h]
    rfl
  have hs2 := rateJobApi_valid_store _ jid "bad_dog" t2 (Or.inr rfl) ⟨_, hg1⟩
  rw [hs1, hs2, getJob_map _ jid _ hpres2, hg1]
  simp only [Option.map_some']
  rw [if_pos hid]
  have hid2 : ((rateMut j "good_dog" t1).job_id == jid) = true := hid
  rw [if_pos hid2]
  rfl

/-- Witness for C7: a one-job store rated `good_dog` then `bad_dog` keeps the
job's status `processing` and ends with `user_rating = bad_dog`. -/
theorem rate_then_rerate_witness :
    getJob ((rateJobApi ((rateJobApi storeW "a" "good_dog" dt1).2)
        "a" "bad_dog" dt2).2) "a" =
      some { jobW with user_rating := some "bad_dog",
                       rating_timestamp := some dt2, updated_at := dt2 } :=
  rate_then_rerate storeW "a" jobW dt1 dt2 rfl
